import Mathlib

/-!
# BlitzBoat dashboard (`src/web/app.js`) — a shallow embedding in Lean 4

The app is a single-page dashboard: a date-derived password gate, a daily
JSON snapshot loader with a demo fallback, and a family of renderers that
turn the snapshot into visual state.  This file embeds the data model and
every operation the specification's claims touch, and proves (or refutes)
the claims about them.

JavaScript conventions carried into the embedding:
* a field that may be `undefined` is an `Option`;
* `x || d` (the falsy-or default) maps `none` **and** the zero / empty value
  to the default, which is why the `jsOr*` helpers test for `0` / `""`;
* machine numbers are `Nat` / `ℤ` / `ℚ` with explicit `% 2^32` where the
  SHA-256 rounds overflow;
* a property access that throws `TypeError` is an `Except` error.
-/

/-! ## Digest utility: SHA-256 over `Nat`, bytes as `Nat` values `< 256` -/

/-- `2^32`, the word modulus of SHA-256. -/
def M32 : Nat := 4294967296

/-- 32-bit modular addition. -/
def add32 (a b : Nat) : Nat := (a + b) % M32

/-- Right rotation of a 32-bit word (argument expected `< 2^32`). -/
def rotr (k x : Nat) : Nat := (x >>> k) ||| ((x <<< (32 - k)) % M32)

/-- 32-bit bitwise complement (argument expected `< 2^32`). -/
def bnot32 (x : Nat) : Nat := x ^^^ (M32 - 1)

/-- SHA-256 big sigma 0. -/
def bsig0 (x : Nat) : Nat := rotr 2 x ^^^ rotr 13 x ^^^ rotr 22 x

/-- SHA-256 big sigma 1. -/
def bsig1 (x : Nat) : Nat := rotr 6 x ^^^ rotr 11 x ^^^ rotr 25 x

/-- SHA-256 small sigma 0. -/
def ssig0 (x : Nat) : Nat := rotr 7 x ^^^ rotr 18 x ^^^ (x >>> 3)

/-- SHA-256 small sigma 1. -/
def ssig1 (x : Nat) : Nat := rotr 17 x ^^^ rotr 19 x ^^^ (x >>> 10)

/-- SHA-256 choice function. -/
def chF (x y z : Nat) : Nat := (x &&& y) ^^^ (bnot32 x &&& z)

/-- SHA-256 majority function. -/
def majF (x y z : Nat) : Nat := (x &&& y) ^^^ (x &&& z) ^^^ (y &&& z)

/-- The 64 SHA-256 round constants. -/
def K256 : List Nat :=
  [1116352408, 1899447441, 3049323471, 3921009573, 961987163,
   1508970993, 2453635748, 2870763221, 3624381080, 310598401,
   607225278, 1426881987, 1925078388, 2162078206, 2614888103,
   3248222580, 3835390401, 4022224774, 264347078, 604807628,
   770255983, 1249150122, 1555081692, 1996064986, 2554220882,
   2821834349, 2952996808, 3210313671, 3336571891, 3584528711,
   113926993, 338241895, 666307205, 773529912, 1294757372,
   1396182291, 1695183700, 1986661051, 2177026350, 2456956037,
   2730485921, 2820302411, 3259730800, 3345764771, 3516065817,
   3600352804, 4094571909, 275423344, 430227734, 506948616,
   659060556, 883997877, 958139571, 1322822218, 1537002063,
   1747873779, 1955562222, 2024104815, 2227730452, 2361852424,
   2428436474, 2756734187, 3204031479, 3329325298]

/-- The eight SHA-256 working / chaining words. -/
structure Hash8 where
  a : Nat
  b : Nat
  c : Nat
  d : Nat
  e : Nat
  f : Nat
  g : Nat
  h : Nat
deriving Repr, DecidableEq

/-- The SHA-256 initial hash value. -/
def initH : Hash8 :=
  ⟨1779033703, 3144134277, 1013904242, 2773480762,
   1359893119, 2600822924, 528734635, 1541459225⟩

/-- One SHA-256 round, consuming a combined `(k, w)` pair. -/
def roundStep (st : Hash8) (kw : Nat × Nat) : Hash8 :=
  let t1 := add32 st.h (add32 (bsig1 st.e) (add32 (chF st.e st.f st.g) (add32 kw.1 kw.2)))
  let t2 := add32 (bsig0 st.a) (majF st.a st.b st.c)
  ⟨add32 t1 t2, st.a, st.b, st.c, add32 st.d t1, st.e, st.f, st.g⟩

/-- Componentwise 32-bit addition of two hash states. -/
def addH (x y : Hash8) : Hash8 :=
  ⟨add32 x.a y.a, add32 x.b y.b, add32 x.c y.c, add32 x.d y.d,
   add32 x.e y.e, add32 x.f y.f, add32 x.g y.g, add32 x.h y.h⟩

/-- Extend the message schedule by `n` words.  The accumulator holds the words
seen so far in reverse order (head = most recent), so
`w_t = ssig1 w_{t-2} + w_{t-7} + ssig0 w_{t-15} + w_{t-16}` reads indices
1, 6, 14, 15 off the accumulator. -/
def extendSched : Nat → List Nat → List Nat
  | 0, acc => acc
  | n + 1, acc =>
      let w := add32 (add32 (ssig1 (acc.getD 1 0)) (acc.getD 6 0))
                     (add32 (ssig0 (acc.getD 14 0)) (acc.getD 15 0))
      extendSched n (w :: acc)

/-- Compress one 16-word block into the chaining state. -/
def compress (H : Hash8) (block : List Nat) : Hash8 :=
  let ws := (extendSched 48 block.reverse).reverse
  addH H ((K256.zip ws).foldl roundStep H)

/-- Fold the compression function over the message, 16 words per block. -/
def processBlocks : Hash8 → List Nat → Hash8
  | H, w0 :: w1 :: w2 :: w3 :: w4 :: w5 :: w6 :: w7 ::
       w8 :: w9 :: w10 :: w11 :: w12 :: w13 :: w14 :: w15 :: rest =>
      processBlocks (compress H [w0, w1, w2, w3, w4, w5, w6, w7,
                                 w8, w9, w10, w11, w12, w13, w14, w15]) rest
  | H, _ => H

/-- Big-endian 8-byte encoding of the message bit length. -/
def lengthBytes (n : Nat) : List Nat :=
  [(n >>> 56) % 256, (n >>> 48) % 256, (n >>> 40) % 256, (n >>> 32) % 256,
   (n >>> 24) % 256, (n >>> 16) % 256, (n >>> 8) % 256, n % 256]

/-- SHA-256 padding: `0x80`, zeros to 56 mod 64, then the 64-bit bit length. -/
def sha256pad (msg : List Nat) : List Nat :=
  let l := msg.length
  msg ++ 0x80 :: (List.replicate ((119 - l % 64) % 64) 0 ++ lengthBytes (l * 8))

/-- Pack big-endian bytes into 32-bit words, four at a time. -/
def bytesToWords : List Nat → List Nat
  | b0 :: b1 :: b2 :: b3 :: rest =>
      (b0 * 16777216 + b1 * 65536 + b2 * 256 + b3) :: bytesToWords rest
  | _ => []

/-- The four big-endian bytes of a 32-bit word. -/
def wordBytes (w : Nat) : List Nat :=
  [(w >>> 24) % 256, (w >>> 16) % 256, (w >>> 8) % 256, w % 256]

/-- The 32 digest bytes of a final hash state. -/
def Hash8.toBytes (H : Hash8) : List Nat :=
  [H.a, H.b, H.c, H.d, H.e, H.f, H.g, H.h].flatMap wordBytes

/-- SHA-256 of a byte sequence (bytes as `Nat < 256`), as 32 digest bytes. -/
def sha256 (msg : List Nat) : List Nat :=
  (processBlocks initH (bytesToWords (sha256pad msg))).toBytes

/-- UTF-8 encoding of one character (the `TextEncoder` step). -/
def utf8Char (c : Char) : List Nat :=
  let n := c.toNat
  if n < 0x80 then [n]
  else if n < 0x800 then [0xC0 ||| (n >>> 6), 0x80 ||| (n &&& 0x3F)]
  else if n < 0x10000 then
    [0xE0 ||| (n >>> 12), 0x80 ||| ((n >>> 6) &&& 0x3F), 0x80 ||| (n &&& 0x3F)]
  else
    [0xF0 ||| (n >>> 18), 0x80 ||| ((n >>> 12) &&& 0x3F),
     0x80 ||| ((n >>> 6) &&& 0x3F), 0x80 ||| (n &&& 0x3F)]

/-- UTF-8 encoding of a string, as bytes. -/
def utf8Encode (s : String) : List Nat := s.data.flatMap utf8Char

/-- The lowercase hexadecimal alphabet. -/
def hexAlphabet : List Char := "0123456789abcdef".data

/-- The lowercase hex digit for a value `< 16` (out of range falls back to `'0'`,
which never happens for the nibbles of a byte). -/
def hexDigit (n : Nat) : Char := hexAlphabet.getD n '0'

/-- `const AUTH_SECRET = 'blitzboat2026'`. -/
def AUTH_SECRET : String := "blitzboat2026"

/-- `generateDailyPassword`, parameterised by the `YYYYMMDD` date string the
code derives from the clock: hash `dateStr + AUTH_SECRET`, hex the digest
byte-by-byte (`toString(16).padStart(2, '0')` = high nibble then low nibble),
join, and keep the first 8 characters (`slice(0, 8)`). -/
def generateDailyPassword (dateStr : String) : String :=
  let raw := dateStr ++ AUTH_SECRET
  let digest := sha256 (utf8Encode raw)
  let hashHex := (digest.map (fun b => [hexDigit (b / 16), hexDigit (b % 16)])).flatten
  String.mk (hashHex.take 8)

/-- The password the specification's words describe: the first 8 characters of
the lowercase hex SHA-256 digest of the UTF-8 bytes of the `YYYYMMDD` date
concatenated with the fixed secret. -/
def specDerivedPassword (dateStr : String) : String :=
  String.mk (((sha256 (utf8Encode (dateStr ++ AUTH_SECRET))).flatMap
    (fun b => [hexDigit (b / 16), hexDigit (b % 16)])).take 8)

/-! ## Data model (§3): snapshot entities, optional fields as `Option` -/

/-- `Entrant`: the boat-1 entrant inside a race. -/
structure Entrant where
  name : Option String := none
  national_rate : Option ℚ := none
  local_rate : Option ℚ := none
  motor_no : Option String := none
deriving Repr, DecidableEq

/-- `Condition`: a trigger explanation. -/
structure Condition where
  triggered : Option Bool := none
  reason : Option String := none
deriving Repr, DecidableEq

/-- `Ticket`: one suggested bet. -/
structure Ticket where
  trifecta : String
  prob : Option ℚ := none
  amount : Option Nat := none
  kimarite : String
deriving Repr, DecidableEq

/-- `Pattern`: one row of a venue's outcome-pattern ranking. -/
structure Pattern where
  trifecta : String
  prob : ℚ
  cum_prob : ℚ
  count : Nat
  kimarite : String
deriving Repr, DecidableEq

/-- `VenueStats`: per-venue historical summary. -/
structure VenueStats where
  name : Option String := none
  total_races : Option Nat := none
  filtered_races : Option Nat := none
  top_patterns : Option (List Pattern) := none
deriving Repr, DecidableEq

/-- `Race`: one flagged chance race. -/
structure Race where
  venue : Option String := none
  venue_name : Option String := none
  race_no : Option Nat := none
  boat1_win_prob : Option ℚ := none
  boat1 : Option Entrant := none
  cond1 : Option Condition := none
  cond2 : Option Condition := none
  tickets : Option (List Ticket) := none
deriving Repr, DecidableEq

/-- `Snapshot`: the root object of one day's data.  `venue_stats_summary` is a
JS object with unique keys, embedded as an association list. -/
structure Snapshot where
  date : Option String := none
  total_races : Option Nat := none
  chance_races : Option (List Race) := none
  venue_stats_summary : Option (List (String × VenueStats)) := none
deriving Repr, DecidableEq

/-! ## JavaScript falsy-or coercions: `x || d` defaults `undefined` and `0` / `""` -/

/-- `x || d` on a number-valued field: `undefined` and `0` are falsy. -/
def jsOrRat (x : Option ℚ) (d : ℚ) : ℚ :=
  match x with
  | none => d
  | some v => if v = 0 then d else v

/-- `x || d` on an integer-valued field: `undefined` and `0` are falsy. -/
def jsOrNat (x : Option Nat) (d : Nat) : Nat :=
  match x with
  | none => d
  | some v => if v = 0 then d else v

/-- `x || d` on a string-valued field: `undefined` and `""` are falsy. -/
def jsOrStr (x : Option String) (d : String) : String :=
  match x with
  | none => d
  | some v => if v = "" then d else v

/-- `${race.race_no || ''}` — a number interpolated after a falsy-or against
the empty string: absent or zero renders as the empty string. -/
def jsNumOrEmpty (x : Option Nat) : String :=
  match x with
  | none => ""
  | some v => if v = 0 then "" else toString v

/-! ## Number formatting: `toFixed` and `toLocaleString` -/

/-- The floor of a rational, as `Int.fdiv` of the reduced numerator by the
(positive) denominator, so that it evaluates by kernel reduction. -/
def ratFloor (q : ℚ) : ℤ := Int.fdiv q.num q.den

/-- JS rounding to the nearest integer, halves away from zero (`toFixed`). -/
def jsRound (q : ℚ) : ℤ :=
  if q < 0 then -(ratFloor (-q + 1 / 2)) else ratFloor (q + 1 / 2)

/-- `x.toFixed(0)`. -/
def jsToFixed0Str (q : ℚ) : String := toString (jsRound q)

/-- `x.toFixed(1)`: one decimal digit. -/
def jsToFixed1Str (q : ℚ) : String :=
  let n := jsRound (q * 10)
  let m := n.natAbs
  (if n < 0 then "-" else "") ++ toString (m / 10) ++ "." ++ toString (m % 10)

/-- `x.toFixed(2)`: two decimal digits. -/
def jsToFixed2Str (q : ℚ) : String :=
  let n := jsRound (q * 100)
  let m := n.natAbs
  (if n < 0 then "-" else "") ++ toString (m / 100) ++ "." ++
    (if m % 100 < 10 then "0" else "") ++ toString (m % 100)

/-- Insert a thousands separator every three digits, working on the reversed
digit list (least significant digit first). -/
def group3 : List Char → List Char
  | a :: b :: c :: d :: rest => a :: b :: c :: ',' :: group3 (d :: rest)
  | l => l

/-- `n.toLocaleString()`: decimal digits grouped in threes by commas. -/
def groupThousands (n : Nat) : String :=
  String.mk ((group3 (toString n).data.reverse).reverse)

/-- A yen amount as the ticket renderer prints it: `¥` plus grouped digits. -/
def yen (n : Nat) : String := "¥" ++ groupThousands n

/-- `Math.min(...xs)` behind a non-emptiness guard.  (`Math.min()` of an empty
spread would be `Infinity`; every call site checks `length > 0` first, so the
`[]` case is unreachable and its value here is arbitrary.) -/
def jsMin : List ℚ → ℚ
  | [] => 0
  | h :: t => t.foldl min h

/-- `Math.max(...xs)` behind a non-emptiness guard, as for `jsMin`. -/
def jsMax : List ℚ → ℚ
  | [] => 0
  | h :: t => t.foldl max h

/-! ## View model: the visual state the renderers write into the page -/

/-- One clickable chance-race card, as `renderChanceRaces` lays it out. -/
structure RaceCardView where
  index : Nat
  venueRace : String
  winProbText : String
  boat1Name : String
  nationalRate : String
  localRate : String
  cond1Reason : String
  cond2Reason : String
deriving Repr, DecidableEq

/-- The chance-race list panel: either the empty-state message or the cards. -/
inductive ChancePanel where
  | emptyMsg (msg : String)
  | cards (items : List RaceCardView)
deriving Repr, DecidableEq

/-- One suggested-ticket row. -/
structure TicketRow where
  rank : Nat
  trifecta : String
  kimarite : String
  probText : String
  amountText : String
deriving Repr, DecidableEq

/-- The ticket panel: the empty-state message, or the rows plus the total. -/
inductive TicketPanel where
  | emptyMsg (msg : String)
  | rows (items : List TicketRow) (totalText : String)
deriving Repr, DecidableEq

/-- One venue-ranking table row. -/
structure RankRow where
  rank : Nat
  trifecta : String
  probText : String
  cumText : String
  count : Nat
  kimarite : String
  barWidth : String
deriving Repr, DecidableEq

/-- The venue-ranking panel: an empty-state message or the ranking table. -/
inductive RankingPanel where
  | emptyMsg (msg : String)
  | table (items : List RankRow)
deriving Repr, DecidableEq

/-- The dashboard's visual state: the four stat numbers, the alert banner,
and the four content panels (race cards, venue drop-down, ranking, tickets). -/
structure DashState where
  statChance : String
  statTotal : String
  statLowest : String
  statTickets : String
  bannerVisible : Bool
  alertText : String
  chancePanel : ChancePanel
  venueOptions : List (String × String)
  venueValue : String
  rankingPanel : RankingPanel
  ticketPanel : TicketPanel
deriving Repr, DecidableEq

/-- A fresh page state: banner hidden, placeholder stats, empty panels. -/
def blankState : DashState where
  statChance := "-"
  statTotal := "-"
  statLowest := "-"
  statTickets := "-"
  bannerVisible := false
  alertText := ""
  chancePanel := .emptyMsg ""
  venueOptions := []
  venueValue := ""
  rankingPanel := .emptyMsg "データなし"
  ticketPanel := .emptyMsg ""

/-- A JS exception escaping a renderer. -/
inductive JsError where
  | typeError
deriving Repr, DecidableEq

/-! ## Renderers -/

/-- One card of `renderChanceRaces`: venue name + race number, win probability
as a whole percent (`(race.boat1_win_prob || 0) * 100`), entrant defaults
(`不明`, `0.00` rates), and the two condition reasons. -/
def raceCard (i : Nat) (race : Race) : RaceCardView :=
  let boat1 := race.boat1.getD {}
  let cond1 := race.cond1.getD {}
  let cond2 := race.cond2.getD {}
  { index := i
    venueRace := jsOrStr race.venue_name "" ++ " " ++ jsNumOrEmpty race.race_no ++ "R"
    winProbText := jsToFixed0Str (jsOrRat race.boat1_win_prob 0 * 100) ++ "%"
    boat1Name := jsOrStr boat1.name "不明"
    nationalRate := jsToFixed2Str (jsOrRat boat1.national_rate 0)
    localRate := jsToFixed2Str (jsOrRat boat1.local_rate 0)
    cond1Reason := jsOrStr cond1.reason ""
    cond2Reason := jsOrStr cond2.reason "" }

/-- `renderChanceRaces`: the empty-state placeholder, or one card per race in
input order, each card clickable through its index. -/
def renderChanceRaces (races : List Race) : ChancePanel :=
  if races.length = 0 then .emptyMsg "チャンスレース該当なし"
  else .cards (races.enum.map (fun p => raceCard p.1 p.2))

/-- One ticket row, from an (index, ticket) pair: throws the `TypeError` of
`t.amount.toLocaleString()` when the amount is absent; an absent probability
prints as `NaN` (`undefined * 100` is `NaN`, and `toFixed` prints it). -/
def ticketRow (p : Nat × Ticket) : Except JsError TicketRow :=
  match p.2.amount with
  | none => Except.error JsError.typeError
  | some a => Except.ok
      { rank := p.1 + 1
        trifecta := p.2.trifecta
        kimarite := p.2.kimarite
        probText := (match p.2.prob with
                     | none => "NaN"
                     | some q => jsToFixed1Str (q * 100)) ++ "%"
        amountText := yen a }

/-- `renderTickets`: the placeholder when `tickets` is absent or empty;
otherwise one row per ticket.  A thrown row aborts the build before the
panel is written.  The total is the plain integer sum; an absent amount
would make it `NaN` in JS, but the row build has already thrown in that
case, so the sum only ever renders with every amount present. -/
def renderTickets (tickets : Option (List Ticket)) : Except JsError TicketPanel :=
  match tickets with
  | none => .ok (.emptyMsg "推奨舟券なし")
  | some [] => .ok (.emptyMsg "推奨舟券なし")
  | some ts => do
      let rows ← ts.enum.mapM ticketRow
      let total := ts.foldl (fun s t => s + t.amount.getD 0) 0
      Except.ok (.rows rows (yen total))

/-- `(p.prob / maxProb * 100).toFixed(0)` with JS division semantics: when the
divisor is zero the quotient is `NaN` (or `±Infinity` off a zero numerator),
and `toFixed` prints it literally. -/
def jsDivPctStr (p m : ℚ) : String :=
  if m = 0 then (if p = 0 then "NaN" else if p > 0 then "Infinity" else "-Infinity")
  else jsToFixed0Str (p / m * 100)

/-- One venue-ranking row: rank, trifecta, per-pattern percent to 2 decimals,
cumulative percent to 1 decimal, count, kimarite, and the proportional bar. -/
def rankRow (maxProb : ℚ) (i : Nat) (p : Pattern) : RankRow :=
  { rank := i + 1
    trifecta := p.trifecta
    probText := jsToFixed2Str (p.prob * 100) ++ "%"
    cumText := jsToFixed1Str (p.cum_prob * 100) ++ "%"
    count := p.count
    kimarite := p.kimarite
    barWidth := jsDivPctStr p.prob maxProb ++ "%" }

/-- `renderVenueRanking`: `データなし` when the venue code is falsy or misses
the summary; `ランキングデータなし` when its `top_patterns` is empty;
otherwise the table, bars normalised against the venue's maximum. -/
def renderVenueRanking (data : Option Snapshot) (jcd : Option String) : RankingPanel :=
  match data, jcd with
  | some d, some code =>
      if code = "" then .emptyMsg "データなし"
      else
        match (d.venue_stats_summary.getD []).lookup code with
        | none => .emptyMsg "データなし"
        | some vs =>
            let patterns := vs.top_patterns.getD []
            if patterns.length = 0 then .emptyMsg "ランキングデータなし"
            else
              let maxProb := jsMax (patterns.map Pattern.prob)
              .table (patterns.enum.map (fun p => rankRow maxProb p.1 p.2))
  | _, _ => .emptyMsg "データなし"

/-- `renderVenueSelector`: the leading placeholder option, then one option per
summary key in lexicographic order, labelled `statsMap[jcd]?.name || jcd`. -/
def renderVenueSelector (statsMap : List (String × VenueStats)) : List (String × String) :=
  ("", "会場を選択") ::
    ((statsMap.map Prod.fst).mergeSort (fun a b => a ≤ b)).map (fun jcd =>
      (jcd, match statsMap.lookup jcd with
            | some vs => jsOrStr vs.name jcd
            | none => jcd))

/-- `renderDashboard`: the full-page render from a snapshot.  The stats strip
and the two delegated panels are always rewritten; the lowest-probability
stat, ticket-count stat, and alert banner are only written behind the
`chanceRaces.length > 0` guard — on an empty list they keep whatever the
page already showed.  Replacing the drop-down's `innerHTML` resets its
selection to the leading placeholder.  The ranking table and the ticket list
are not touched by this function at all. -/
def renderDashboard (st : DashState) (data : Snapshot) : DashState :=
  let chanceRaces := data.chance_races.getD []
  let nonEmpty := 0 < chanceRaces.length
  let lowest := jsMin (chanceRaces.map (fun r => jsOrRat r.boat1_win_prob 1))
  let totalTickets := chanceRaces.foldl
    (fun s r => s + (match r.tickets with | some ts => ts.length | none => 0)) 0
  { statChance := toString chanceRaces.length
    statTotal := toString (jsOrNat data.total_races 0)
    statLowest := if nonEmpty then jsToFixed0Str (lowest * 100) ++ "%" else st.statLowest
    statTickets := if nonEmpty then toString totalTickets else st.statTickets
    bannerVisible := if nonEmpty then true else st.bannerVisible
    alertText := if nonEmpty then
        "🔥 本日のチャンスレース: " ++ toString chanceRaces.length ++
          "件検出! 最低1号艇勝率: " ++ jsToFixed0Str (lowest * 100) ++ "%"
      else st.alertText
    chancePanel := renderChanceRaces chanceRaces
    venueOptions := renderVenueSelector (data.venue_stats_summary.getD [])
    venueValue := ""
    rankingPanel := st.rankingPanel
    ticketPanel := st.ticketPanel }

/-- The race `selectRace` would look up: `currentData.chance_races[index]`,
behind the two falsy guards (`!currentData`, `!currentData.chance_races`).
An empty `chance_races` array is truthy, but indexing it yields `undefined`,
so it lands in the same `none`. -/
def raceAt (data : Option Snapshot) (index : Nat) : Option Race :=
  data.bind (fun s => s.chance_races.bind (fun races => races.get? index))

/-- `selectRace(index)`: a no-op when the lookup fails; otherwise render the
tickets — but only when `race.tickets` is truthy, so an *absent* tickets
field skips the ticket renderer and leaves that panel as it was — then set
the drop-down value to `race.venue || ''` and re-render the ranking panel
for `race.venue`.  A `TypeError` escaping the ticket renderer aborts the
whole handler before the venue updates. -/
def selectRace (data : Option Snapshot) (index : Nat) (st : DashState) :
    Except JsError DashState :=
  match raceAt data index with
  | none => .ok st
  | some race => do
      let st1 ← match race.tickets with
        | none => pure st
        | some ts => do
            let panel ← renderTickets (some ts)
            pure { st with ticketPanel := panel }
      .ok { st1 with
              venueValue := jsOrStr race.venue ""
              rankingPanel := renderVenueRanking data race.venue }

/-! ## Snapshot loader (§4.3) -/

/-- What probing one candidate URL can yield: a thrown fetch, a non-success
status, a success whose body fails to parse (`resp.json()` throws inside the
same `try`), or a parsed snapshot. -/
inductive FetchOutcome where
  | throws
  | notOk
  | okBadJson
  | okJson (s : Snapshot)
deriving Repr, DecidableEq

/-- A candidate that gets skipped in favour of the next one. -/
def isFailure : FetchOutcome → Bool
  | .okJson _ => false
  | _ => true

/-- The first candidate that fetches and parses, scanning in order. -/
def firstSuccess : List FetchOutcome → Option Snapshot
  | [] => none
  | .okJson s :: _ => some s
  | _ :: rest => firstSuccess rest

/-- The two candidate resource locations, in probe order. -/
def dataUrls (dateStr : String) : List String :=
  ["./data/daily_" ++ dateStr ++ ".json", "./data/latest.json"]

/-- The demo `top_patterns` for venue `01` (桐生), verbatim from the source. -/
def demoPatterns01 : List Pattern :=
  [ { trifecta := "2-3-4", prob := 0.082, cum_prob := 0.082, count := 35, kimarite := "まくり" },
    { trifecta := "3-2-4", prob := 0.065, cum_prob := 0.147, count := 28, kimarite := "まくり差し" },
    { trifecta := "4-2-3", prob := 0.055, cum_prob := 0.202, count := 24, kimarite := "まくり" },
    { trifecta := "2-4-3", prob := 0.048, cum_prob := 0.250, count := 21, kimarite := "まくり" },
    { trifecta := "3-4-2", prob := 0.042, cum_prob := 0.292, count := 18, kimarite := "まくり差し" },
    { trifecta := "4-3-2", prob := 0.038, cum_prob := 0.330, count := 16, kimarite := "まくり" },
    { trifecta := "5-2-3", prob := 0.032, cum_prob := 0.362, count := 14, kimarite := "まくり" },
    { trifecta := "2-5-3", prob := 0.028, cum_prob := 0.390, count := 12, kimarite := "まくり" },
    { trifecta := "3-5-2", prob := 0.025, cum_prob := 0.415, count := 11, kimarite := "まくり差し" },
    { trifecta := "4-5-2", prob := 0.022, cum_prob := 0.437, count := 10, kimarite := "まくり" } ]

/-- The demo venue stats for venue `01`. -/
def demoStats01 : VenueStats :=
  { name := some "桐生", total_races := some 2160, filtered_races := some 432
    top_patterns := some demoPatterns01 }

/-- The demo venue stats for venue `22` (福岡). -/
def demoStats22 : VenueStats :=
  { name := some "福岡", total_races := some 2100, filtered_races := some 410
    top_patterns := some
      [ { trifecta := "3-2-4", prob := 0.075, cum_prob := 0.075, count := 31, kimarite := "まくり差し" },
        { trifecta := "2-3-4", prob := 0.068, cum_prob := 0.143, count := 28, kimarite := "まくり" },
        { trifecta := "4-3-2", prob := 0.052, cum_prob := 0.195, count := 21, kimarite := "まくり" } ] }

/-- `getDemoData()`, the built-in fallback payload, verbatim from the source;
its `date` field comes from the clock, passed in here. -/
def getDemoData (todayStr : String) : Snapshot :=
  { date := some todayStr
    total_races := some 144
    chance_races := some
      [ { venue := some "01", venue_name := some "桐生", race_no := some 5
          boat1_win_prob := some 0.22
          boat1 := some { name := some "サンプル選手A", national_rate := some 3.82,
                          local_rate := some 2.15, motor_no := some "45" }
          cond1 := some { triggered := some true, reason := some "全国勝率 3.82 < 4.5" }
          cond2 := some { triggered := some true,
                          reason := some "avg(0.190) + std(0.015) = 0.205 > 0.18" }
          tickets := some
            [ { trifecta := "2-3-4", prob := some 0.082, amount := some 6300, kimarite := "まくり" },
              { trifecta := "3-2-4", prob := some 0.065, amount := some 5000, kimarite := "まくり差し" },
              { trifecta := "4-2-3", prob := some 0.055, amount := some 4200, kimarite := "まくり" },
              { trifecta := "2-4-3", prob := some 0.048, amount := some 3700, kimarite := "まくり" },
              { trifecta := "3-4-2", prob := some 0.042, amount := some 3200, kimarite := "まくり差し" },
              { trifecta := "4-3-2", prob := some 0.038, amount := some 2900, kimarite := "まくり" },
              { trifecta := "5-2-3", prob := some 0.032, amount := some 2500, kimarite := "まくり" },
              { trifecta := "2-5-3", prob := some 0.028, amount := some 2200, kimarite := "まくり" } ] },
        { venue := some "22", venue_name := some "福岡", race_no := some 8
          boat1_win_prob := some 0.28
          boat1 := some { name := some "サンプル選手B", national_rate := some 4.15,
                          local_rate := some 2.30, motor_no := some "12" }
          cond1 := some { triggered := some true, reason := some "全国勝率 4.15 < 4.5" }
          cond2 := some { triggered := some true,
                          reason := some "avg(0.185) + std(0.012) = 0.197 > 0.18" }
          tickets := some [] } ]
    venue_stats_summary := some [("01", demoStats01), ("22", demoStats22)] }

/-- `loadDailyData`, over an environment listing the outcome of each candidate
probe in order: the first parsed snapshot wins, and when every candidate
fails the demo payload is used.  Total by construction — the load never
fails to produce a snapshot. -/
def loadDailyData (env : List FetchOutcome) (todayStr : String) : Snapshot :=
  (firstSuccess env).getD (getDemoData todayStr)

/-! ## Session gate (§4.2) -/

/-- `YYYY-MM-DD` to `YYYYMMDD`: a global `replace` deleting every hyphen. -/
def stripHyphens (s : String) : String := String.mk (s.data.filter (· ≠ '-'))

/-- `input.trim()`: strip leading and trailing whitespace, on the character
list so that it evaluates by kernel reduction. -/
def jsTrim (s : String) : String :=
  String.mk (((s.data.dropWhile Char.isWhitespace).reverse.dropWhile
    Char.isWhitespace).reverse)

/-- The `auth-form` submit handler as a state transition: trim the input,
compare against today's derived password, and on a match store today's
`YYYY-MM-DD` key as the session unlock flag; on a mismatch the flag is left
alone.  Returns (accepted?, new flag). -/
def attemptUnlock (isoToday input : String) (flag : Option String) :
    Bool × Option String :=
  let expected := generateDailyPassword (stripHyphens isoToday)
  if jsTrim input = expected then (true, some isoToday) else (false, flag)

/-! ## Helper lemmas -/

section Helpers

variable {α : Type}

/-- A left fold by `min` is a lower bound for the seed and every element. -/
theorem foldl_min_le (l : List ℚ) : ∀ (a : ℚ), ∀ x ∈ a :: l, l.foldl min a ≤ x := by
  induction l with
  | nil =>
      intro a x hx
      simp only [List.mem_cons, List.not_mem_nil, or_false] at hx
      simp [hx]
  | cons b t ih =>
      intro a x hx
      have hle : List.foldl min (min a b) t ≤ min a b :=
        ih (min a b) (min a b) (List.mem_cons_self _ _)
      show List.foldl min (min a b) t ≤ x
      simp only [List.mem_cons] at hx
      rcases hx with rfl | rfl | hx
      · exact le_trans hle (min_le_left _ _)
      · exact le_trans hle (min_le_right _ _)
      · exact ih (min a b) x (List.mem_cons_of_mem _ hx)

/-- A left fold by `min` lands on the seed or on an element. -/
theorem foldl_min_mem (l : List ℚ) : ∀ (a : ℚ), l.foldl min a ∈ a :: l := by
  induction l with
  | nil => intro a; simp
  | cons b t ih =>
      intro a
      have h := ih (min a b)
      show List.foldl min (min a b) t ∈ a :: b :: t
      rcases List.mem_cons.mp h with h1 | h1
      · rcases min_choice a b with hm | hm
        · rw [h1, hm]; exact List.mem_cons_self _ _
        · rw [h1, hm]; exact List.mem_cons_of_mem _ (List.mem_cons_self _ _)
      · exact List.mem_cons_of_mem _ (List.mem_cons_of_mem _ h1)

/-- A left fold by `max` is an upper bound for the seed and every element. -/
theorem foldl_max_ge (l : List ℚ) : ∀ (a : ℚ), ∀ x ∈ a :: l, x ≤ l.foldl max a := by
  induction l with
  | nil =>
      intro a x hx
      simp only [List.mem_cons, List.not_mem_nil, or_false] at hx
      simp [hx]
  | cons b t ih =>
      intro a x hx
      have hge : max a b ≤ List.foldl max (max a b) t :=
        ih (max a b) (max a b) (List.mem_cons_self _ _)
      show x ≤ List.foldl max (max a b) t
      simp only [List.mem_cons] at hx
      rcases hx with rfl | rfl | hx
      · exact le_trans (le_max_left _ _) hge
      · exact le_trans (le_max_right _ _) hge
      · exact ih (max a b) x (List.mem_cons_of_mem _ hx)

/-- A left fold by `max` lands on the seed or on an element. -/
theorem foldl_max_mem (l : List ℚ) : ∀ (a : ℚ), l.foldl max a ∈ a :: l := by
  induction l with
  | nil => intro a; simp
  | cons b t ih =>
      intro a
      have h := ih (max a b)
      show List.foldl max (max a b) t ∈ a :: b :: t
      rcases List.mem_cons.mp h with h1 | h1
      · rcases max_choice a b with hm | hm
        · rw [h1, hm]; exact List.mem_cons_self _ _
        · rw [h1, hm]; exact List.mem_cons_of_mem _ (List.mem_cons_self _ _)
      · exact List.mem_cons_of_mem _ (List.mem_cons_of_mem _ h1)

/-- `jsMin` of a non-empty list is an element. -/
theorem jsMin_mem (l : List ℚ) (h : l ≠ []) : jsMin l ∈ l := by
  cases l with
  | nil => exact absurd rfl h
  | cons a t => exact foldl_min_mem t a

/-- `jsMin` of a non-empty list is a lower bound. -/
theorem jsMin_le (l : List ℚ) (h : l ≠ []) : ∀ x ∈ l, jsMin l ≤ x := by
  cases l with
  | nil => exact absurd rfl h
  | cons a t => exact fun x hx => foldl_min_le t a x hx

/-- `jsMax` of a non-empty list is an element. -/
theorem jsMax_mem (l : List ℚ) (h : l ≠ []) : jsMax l ∈ l := by
  cases l with
  | nil => exact absurd rfl h
  | cons a t => exact foldl_max_mem t a

/-- `jsMax` of a non-empty list is an upper bound. -/
theorem jsMax_ge (l : List ℚ) (h : l ≠ []) : ∀ x ∈ l, x ≤ jsMax l := by
  cases l with
  | nil => exact absurd rfl h
  | cons a t => exact fun x hx => foldl_max_ge t a x hx

/-- The second components of `enumFrom` are the original elements. -/
theorem mem_enumFrom_snd {p : Nat × α} :
    ∀ (l : List α) (n : Nat), p ∈ l.enumFrom n → p.2 ∈ l := by
  intro l
  induction l with
  | nil => intro n h; simp [List.enumFrom] at h
  | cons a t ih =>
      intro n h
      rcases List.mem_cons.mp h with h | h
      · simp [h]
      · exact List.mem_cons_of_mem _ (ih (n + 1) h)

/-- Mapping a function of the element only over `enumFrom` forgets the index. -/
theorem map_enumFrom_snd {β : Type} (f : α → β) :
    ∀ (l : List α) (n : Nat), (l.enumFrom n).map (fun p => f p.2) = l.map f := by
  intro l
  induction l with
  | nil => intro n; rfl
  | cons a t ih => intro n; simp [List.enumFrom, ih]

end Helpers

/-- Every value `hexDigit` can produce is in the lowercase hex alphabet. -/
theorem hexDigit_mem (n : Nat) : hexDigit n ∈ hexAlphabet := by
  unfold hexDigit List.getD
  cases h : hexAlphabet.get? n with
  | some c => simpa [h] using List.get?_mem h
  | none => simp [h]; decide

/-- Ticket rows build without throwing exactly when every amount is present;
an empty list yields the empty-state placeholder. -/
theorem renderTickets_total (ts : List Ticket) (h : ∀ t ∈ ts, t.amount ≠ none) :
    ∃ panel, renderTickets (some ts) = Except.ok panel ∧
      (ts = [] → panel = TicketPanel.emptyMsg "推奨舟券なし") := by
  cases ts with
  | nil => exact ⟨TicketPanel.emptyMsg "推奨舟券なし", rfl, fun _ => rfl⟩
  | cons t0 rest =>
      have hrows : ∀ (l : List (Nat × Ticket)), (∀ p ∈ l, p.2.amount ≠ none) →
          ∃ rows, l.mapM ticketRow = Except.ok rows := by
        intro l
        induction l with
        | nil => intro _; exact ⟨[], rfl⟩
        | cons p l' ih =>
            intro hl
            obtain ⟨rows', hrows'⟩ := ih (fun q hq => hl q (List.mem_cons_of_mem _ hq))
            have hp := hl p (List.mem_cons_self _ _)
            cases hamt : p.2.amount with
            | none => exact absurd hamt hp
            | some a =>
                have htr : ∃ tr, ticketRow p = Except.ok tr := by
                  simp [ticketRow, hamt]
                obtain ⟨tr, htr⟩ := htr
                exact ⟨tr :: rows', by rw [List.mapM_cons, htr, hrows']; rfl⟩
      obtain ⟨rows, hr⟩ := hrows ((t0 :: rest).enum)
        (fun p hp => h p.2 (mem_enumFrom_snd _ 0 hp))
      refine ⟨TicketPanel.rows rows
        (yen ((t0 :: rest).foldl (fun s t => s + t.amount.getD 0) 0)), ?_, by simp⟩
      simp only [renderTickets]
      rw [hr]
      rfl

/-! ## The claims -/

/-- C3: for every date string, `generateDailyPassword` is deterministic, its
output is exactly 8 characters, every character is a lowercase hex digit,
and it equals the first 8 characters of the lowercase hex SHA-256 digest of
the UTF-8 bytes of the `YYYYMMDD` date concatenated with the fixed secret. -/
theorem generateDailyPassword_spec (d : String) :
    generateDailyPassword d = generateDailyPassword d ∧
    (generateDailyPassword d).length = 8 ∧
    (∀ c ∈ (generateDailyPassword d).data, c ∈ hexAlphabet) ∧
    generateDailyPassword d = specDerivedPassword d := by
  refine ⟨rfl, rfl, ?_, rfl⟩
  intro c hc
  have : (generateDailyPassword d).data
      = ((sha256 (utf8Encode (d ++ AUTH_SECRET))).map
          (fun b => [hexDigit (b / 16), hexDigit (b % 16)])).flatten.take 8 := rfl
  rw [this] at hc
  obtain ⟨l, hl, hcl⟩ := List.mem_flatten.mp (List.mem_of_mem_take hc)
  obtain ⟨b, _, rfl⟩ := List.mem_map.mp hl
  rcases List.mem_cons.mp hcl with rfl | hcl2
  · exact hexDigit_mem _
  · rcases List.mem_cons.mp hcl2 with rfl | hcl3
    · exact hexDigit_mem _
    · simp at hcl3

/-- C3 witness: the concrete password for 2026-10-11 has length 8, and its
first character is a lowercase hex digit. -/
theorem generateDailyPassword_spec_witness :
    (generateDailyPassword "20261011").length = 8 ∧ '9' ∈ hexAlphabet :=
  ⟨(generateDailyPassword_spec "20261011").2.1,
   (generateDailyPassword_spec "20261011").2.2.1 '9' (by decide)⟩

/-- C4: the unlock attempt accepts exactly when the trimmed input equals
today's derived password; acceptance stores today's ISO date as the session
flag; rejection leaves the flag untouched. -/
theorem attemptUnlock_spec (iso input : String) (flag : Option String) :
    ((attemptUnlock iso input flag).1 = true ↔
        jsTrim input = generateDailyPassword (stripHyphens iso)) ∧
    ((attemptUnlock iso input flag).1 = true →
        (attemptUnlock iso input flag).2 = some iso) ∧
    ((attemptUnlock iso input flag).1 = false →
        (attemptUnlock iso input flag).2 = flag) := by
  unfold attemptUnlock
  by_cases h : jsTrim input = generateDailyPassword (stripHyphens iso) <;> simp [h]

/-- C4 witness: a wrong password on 2026-10-11 is rejected and leaves an empty
flag empty. -/
theorem attemptUnlock_spec_witness :
    (attemptUnlock "2026-10-11" "wrong" none).2 = none :=
  (attemptUnlock_spec "2026-10-11" "wrong" none).2.2 (by decide)


/-- A snapshot whose single chance race carries `boat1_win_prob = 0`. -/
def snapZeroProb : Snapshot := { chance_races := some [{ boat1_win_prob := some 0 }] }

unseal Rat.mul Rat.add Rat.inv Rat.ofScientific in
/-- C1 counterexample: with a present-but-zero `boat1_win_prob`, the rendered
stat is `100%`, while the claim's formula — minimum of `boat1_win_prob`
treating only *absent* values as 1.0 — gives 0, i.e. `0%`.  The `||` default
also fires on the falsy value `0`, not only on `undefined`. -/
theorem statLowest_zero_prob_cex :
    (renderDashboard blankState snapZeroProb).statLowest = "100%" ∧
    (snapZeroProb.chance_races.getD []).map (fun r => r.boat1_win_prob.getD 1)
      = [(0 : ℚ)] ∧
    jsToFixed0Str ((0 : ℚ) * 100) ++ "%" = "0%" ∧
    ("0%" : String) ≠ "100%" := by
  refine ⟨by decide, by decide, by decide, by decide⟩

/-- C1 (amended): for every snapshot with non-empty `chance_races`, the lowest
stat displayed by `renderDashboard` equals the minimum of `boat1_win_prob`
over `chance_races` where a race whose `boat1_win_prob` is absent *or zero*
contributes 1.0, rendered as a whole percent.  The value is a true minimum:
it is one of the contributions and a lower bound for all of them. -/
theorem statLowest_eq_min_coerced (st : DashState) (data : Snapshot)
    (races : List Race) (h : data.chance_races = some races) (hne : races ≠ []) :
    (renderDashboard st data).statLowest
      = jsToFixed0Str (jsMin (races.map (fun r => jsOrRat r.boat1_win_prob 1)) * 100) ++ "%" ∧
    jsMin (races.map (fun r => jsOrRat r.boat1_win_prob 1))
      ∈ races.map (fun r => jsOrRat r.boat1_win_prob 1) ∧
    ∀ x ∈ races.map (fun r => jsOrRat r.boat1_win_prob 1),
      jsMin (races.map (fun r => jsOrRat r.boat1_win_prob 1)) ≤ x := by
  have hmapne : races.map (fun r => jsOrRat r.boat1_win_prob 1) ≠ [] := by
    simpa using hne
  refine ⟨?_, jsMin_mem _ hmapne, jsMin_le _ hmapne⟩
  have hlen : 0 < races.length := List.length_pos.mpr hne
  simp [renderDashboard, h, hlen]

unseal Rat.mul Rat.add Rat.inv Rat.ofScientific in
/-- C1 witness: the demo snapshot's two races give lowest `22%`. -/
theorem statLowest_eq_min_coerced_witness :
    (renderDashboard blankState (getDemoData "20261011")).statLowest = "22%" := by
  have h := (statLowest_eq_min_coerced blankState (getDemoData "20261011")
    ((getDemoData "20261011").chance_races.getD []) (by decide) (by decide)).1
  rw [h]
  decide

/-- C2: the loader's candidate list is the date-stamped path then the fixed
latest path; a candidate that throws, returns a non-success status, or fails
to parse is skipped in favour of the rest; a parsed candidate wins
immediately; when every candidate fails the demo snapshot is used, and
rendering the demo snapshot puts `2` in the chance-race stat. -/
theorem loadDailyData_fallback :
    (∀ d, dataUrls d = ["./data/daily_" ++ d ++ ".json", "./data/latest.json"]) ∧
    (∀ o rest t, isFailure o = true → loadDailyData (o :: rest) t = loadDailyData rest t) ∧
    (∀ s rest t, loadDailyData (FetchOutcome.okJson s :: rest) t = s) ∧
    (∀ env t, (∀ o ∈ env, isFailure o = true) → loadDailyData env t = getDemoData t) ∧
    (∀ st t, (renderDashboard st (getDemoData t)).statChance = "2") := by
  refine ⟨fun d => rfl, ?_, fun s rest t => rfl, ?_, ?_⟩
  · intro o rest t ho
    cases o with
    | okJson s => simp [isFailure] at ho
    | throws => rfl
    | notOk => rfl
    | okBadJson => rfl
  · intro env t hall
    induction env with
    | nil => rfl
    | cons o rest ih =>
        have ho := hall o (List.mem_cons_self _ _)
        have hrest := ih (fun x hx => hall x (List.mem_cons_of_mem _ hx))
        cases o with
        | okJson s => simp [isFailure] at ho
        | throws => simpa [loadDailyData, firstSuccess] using hrest
        | notOk => simpa [loadDailyData, firstSuccess] using hrest
        | okBadJson => simpa [loadDailyData, firstSuccess] using hrest
  · intro st t
    show toString ((getDemoData t).chance_races.getD []).length = "2"
    have h2 : ((getDemoData t).chance_races.getD []).length = 2 := rfl
    rw [h2]
    decide

/-- C2 witness: both candidates failing (a thrown fetch, then a non-success
status) falls back to the demo snapshot. -/
theorem loadDailyData_fallback_witness :
    loadDailyData [FetchOutcome.throws, FetchOutcome.notOk] "20261011"
      = getDemoData "20261011" :=
  loadDailyData_fallback.2.2.2.1 [FetchOutcome.throws, FetchOutcome.notOk]
    "20261011" (by decide)

unseal Rat.mul Rat.add Rat.inv Rat.ofScientific in
/-- C10: the `||` default coercions treat a zero-valued field exactly like an
absent one.  A race whose `boat1_win_prob` is exactly 0 contributes 1.0 to
the dashboard's lowest-probability minimum (its coercion under the default
of 1), so it can never win the minimum, while its own card still displays a
win probability of `0%` (coercion under the default of 0). -/
theorem zero_as_absent_coercion (races : List Race) (r : Race) (i : Nat)
    (h : r.boat1_win_prob = some 0) :
    jsOrRat r.boat1_win_prob 1 = 1 ∧
    (raceCard i r).winProbText = "0%" ∧
    (∀ d : ℚ, jsOrRat (some 0) d = jsOrRat none d) ∧
    (∀ d : Nat, jsOrNat (some 0) d = jsOrNat none d) ∧
    (∀ d : String, jsOrStr (some "") d = jsOrStr none d) ∧
    (∀ st, (renderDashboard st { chance_races := some (r :: races) }).statLowest
        = jsToFixed0Str (jsMin ((1 : ℚ) ::
            races.map (fun x => jsOrRat x.boat1_win_prob 1)) * 100) ++ "%") := by
  refine ⟨by simp [jsOrRat, h], ?_, fun d => by simp [jsOrRat], fun d => by simp [jsOrNat],
    fun d => by simp [jsOrStr], ?_⟩
  · show jsToFixed0Str (jsOrRat r.boat1_win_prob 0 * 100) ++ "%" = "0%"
    rw [h]
    show jsToFixed0Str ((0 : ℚ) * 100) ++ "%" = "0%"
    decide
  · intro st
    have hlen : 0 < (r :: races).length := Nat.succ_pos _
    simp [renderDashboard, hlen, jsOrRat, h]

/-- C10 witness: a concrete race with `boat1_win_prob = 0` contributes 1 and
displays `0%`. -/
theorem zero_as_absent_coercion_witness :
    jsOrRat (Race.boat1_win_prob { boat1_win_prob := some 0 }) 1 = 1 ∧
    (raceCard 0 { boat1_win_prob := some 0 }).winProbText = "0%" :=
  ⟨(zero_as_absent_coercion [] { boat1_win_prob := some 0 } 0 rfl).1,
   (zero_as_absent_coercion [] { boat1_win_prob := some 0 } 0 rfl).2.1⟩

/-- A snapshot with an explicitly empty `chance_races`. -/
def emptySnap : Snapshot := { chance_races := some [] }

/-- C7: rendering a snapshot whose `chance_races` is empty, from a state whose
banner is hidden, leaves the banner hidden and leaves the lowest-probability
stat (and the ticket-count stat and alert text) untouched — no value is
computed from an empty minimum, so no `NaN` / `Infinity` artifact can be
written. -/
theorem renderDashboard_empty_banner_hidden (st : DashState) (data : Snapshot)
    (hempty : data.chance_races.getD [] = []) (hb : st.bannerVisible = false) :
    (renderDashboard st data).bannerVisible = false ∧
    (renderDashboard st data).statLowest = st.statLowest ∧
    (renderDashboard st data).statTickets = st.statTickets ∧
    (renderDashboard st data).alertText = st.alertText := by
  simp [renderDashboard, hempty, hb]

/-- C7 witness: the empty snapshot rendered on a fresh page keeps the banner
hidden. -/
theorem renderDashboard_empty_banner_hidden_witness :
    (renderDashboard blankState emptySnap).bannerVisible = false :=
  (renderDashboard_empty_banner_hidden blankState emptySnap (by decide) rfl).1

unseal Rat.mul Rat.add Rat.inv Rat.ofScientific in
/-- C6 counterexample: `renderDashboard` is not a full replacement.  Rendering
the demo snapshot and then a snapshot with empty `chance_races` leaves the
alert banner visible and the lowest stat showing the demo's `22%`, while
rendering the empty snapshot alone on fresh state shows neither. -/
theorem renderDashboard_not_full_replacement_cex :
    (renderDashboard (renderDashboard blankState (getDemoData "20261011"))
        emptySnap).bannerVisible = true ∧
    (renderDashboard blankState emptySnap).bannerVisible = false ∧
    (renderDashboard (renderDashboard blankState (getDemoData "20261011"))
        emptySnap).statLowest = "22%" ∧
    (renderDashboard blankState emptySnap).statLowest = "-" := by
  refine ⟨by decide, by decide, by decide, by decide⟩

/-- C6 (amended): `renderDashboard` is a full replacement whenever the second
snapshot has non-empty `chance_races`: rendering `s1` and then `s2` is the
same visual state as rendering `s2` alone.  (When `s2`'s `chance_races` is
empty the banner, alert text, lowest and ticket stats keep the values the
previous render wrote, as the counterexample shows.) -/
theorem renderDashboard_replace_nonempty (st : DashState) (s1 s2 : Snapshot)
    (h : s2.chance_races.getD [] ≠ []) :
    renderDashboard (renderDashboard st s1) s2 = renderDashboard st s2 := by
  have hn : 0 < (s2.chance_races.getD []).length := List.length_pos.mpr h
  simp [renderDashboard, hn]

unseal Rat.mul Rat.add Rat.inv Rat.ofScientific in
/-- C6 witness: rendering the demo snapshot twice equals rendering it once. -/
theorem renderDashboard_replace_nonempty_witness :
    renderDashboard (renderDashboard blankState (getDemoData "20261011"))
        (getDemoData "20261011")
      = renderDashboard blankState (getDemoData "20261011") :=
  renderDashboard_replace_nonempty blankState (getDemoData "20261011")
    (getDemoData "20261011") (by decide)

/-- C5 counterexample: a ticket whose `amount` is absent makes the ticket
renderer throw a `TypeError` (from `t.amount.toLocaleString()`) instead of
degrading to a default — the dashboard does not reach a rendered state for
this data-shape problem. -/
theorem renderTickets_missing_amount_cex :
    renderTickets (some [{ trifecta := "2-3-4", prob := none, amount := none,
                           kimarite := "まくり" }])
      = Except.error JsError.typeError := rfl

unseal Rat.mul Rat.add Rat.inv Rat.ofScientific in
/-- C5 (amended): the renderers degrade gracefully for an absent `boat1`,
absent entrant name / rates, absent condition reasons, absent or empty
`tickets`, and an absent venue code — but not for the ticket-level fields:
an absent ticket `prob` renders as `NaN%` rather than a documented default,
and an absent ticket `amount` throws, so the no-throw guarantee needs every
ticket to carry an amount. -/
theorem renderers_degrade_gracefully (tickets : List Ticket) (r : Race) (i : Nat)
    (d : Snapshot) (hamt : ∀ t ∈ tickets, t.amount ≠ none) :
    (∃ panel, renderTickets (some tickets) = Except.ok panel ∧
        (tickets = [] → panel = TicketPanel.emptyMsg "推奨舟券なし")) ∧
    renderTickets none = Except.ok (TicketPanel.emptyMsg "推奨舟券なし") ∧
    (r.boat1 = none → (raceCard i r).boat1Name = "不明" ∧
        (raceCard i r).nationalRate = "0.00" ∧ (raceCard i r).localRate = "0.00") ∧
    (r.cond1 = none → (raceCard i r).cond1Reason = "") ∧
    (r.cond2 = none → (raceCard i r).cond2Reason = "") ∧
    renderVenueRanking (some d) none = RankingPanel.emptyMsg "データなし" ∧
    (∀ j a tr k, ticketRow (j, { trifecta := tr, prob := none, amount := some a,
                                 kimarite := k })
      = Except.ok { rank := j + 1, trifecta := tr, kimarite := k,
                    probText := "NaN%", amountText := yen a }) := by
  refine ⟨renderTickets_total tickets hamt, rfl, ?_, ?_, ?_, rfl, fun j a tr k => rfl⟩
  · intro hb
    refine ⟨by simp [raceCard, hb, jsOrStr], ?_, ?_⟩ <;>
      · simp only [raceCard, hb, Option.getD]
        show jsToFixed2Str (jsOrRat none 0) = "0.00"
        decide
  · intro hc
    simp [raceCard, hc, jsOrStr]
  · intro hc
    simp [raceCard, hc, jsOrStr]

/-- C5 witness: the all-defaults race card shows the documented fallbacks. -/
theorem renderers_degrade_gracefully_witness :
    (raceCard 0 {}).boat1Name = "不明" ∧ (raceCard 0 {}).nationalRate = "0.00" :=
  ⟨((renderers_degrade_gracefully [] {} 0 {} (by simp)).2.2.1 rfl).1,
   ((renderers_degrade_gracefully [] {} 0 {} (by simp)).2.2.1 rfl).2.1⟩

/-- A stale, non-placeholder ticket panel left from an earlier selection. -/
def staleTickets : TicketPanel := .rows [] "¥0"

/-- A snapshot whose only race has no `tickets` field at all. -/
def snapNoTicketsRace : Snapshot :=
  { chance_races := some [{ venue := some "01" }] }

/-- A snapshot whose only race has a ticket with no `amount`. -/
def snapBadTicket : Snapshot :=
  { chance_races := some
      [{ tickets := some [{ trifecta := "1-2-3", prob := none, amount := none,
                            kimarite := "x" }] }] }

/-- C8 counterexample: selecting a race whose `tickets` field is absent does
*not* show the empty-state placeholder — `if (race.tickets)` skips the
ticket renderer entirely and the stale panel survives; and selecting a race
whose ticket lacks an amount throws out of the handler. -/
theorem selectRace_absent_tickets_cex :
    (selectRace (some snapNoTicketsRace) 0
        { blankState with ticketPanel := staleTickets }).map DashState.ticketPanel
      = Except.ok staleTickets ∧
    staleTickets ≠ TicketPanel.emptyMsg "推奨舟券なし" ∧
    selectRace (some snapBadTicket) 0 blankState = Except.error JsError.typeError := by
  refine ⟨rfl, by decide, rfl⟩

/-- C8 (amended): `selectRace` is a no-op — no error, no state change — when
the snapshot is absent, `chance_races` is absent, or the index misses.  For
a hit whose tickets all carry amounts: an absent `tickets` field leaves the
ticket panel unchanged (the renderer is skipped, not handed an empty list);
a present `tickets` goes through the ticket renderer, showing the
empty-state placeholder when it is empty; the drop-down value becomes
`race.venue || ''` and the ranking panel is re-rendered for `race.venue`. -/
theorem selectRace_spec (data : Option Snapshot) (i : Nat) (st : DashState) :
    (raceAt data i = none → selectRace data i st = Except.ok st) ∧
    (∀ race, raceAt data i = some race →
      (race.tickets = none →
        selectRace data i st = Except.ok { st with
          venueValue := jsOrStr race.venue ""
          rankingPanel := renderVenueRanking data race.venue }) ∧
      (∀ ts, race.tickets = some ts → (∀ t ∈ ts, t.amount ≠ none) →
        ∃ panel, renderTickets (some ts) = Except.ok panel ∧
          (ts = [] → panel = TicketPanel.emptyMsg "推奨舟券なし") ∧
          selectRace data i st = Except.ok { st with
            ticketPanel := panel
            venueValue := jsOrStr race.venue ""
            rankingPanel := renderVenueRanking data race.venue })) := by
  constructor
  · intro h
    simp [selectRace, h]
  · intro race hrace
    constructor
    · intro ht
      simp [selectRace, hrace, ht]
    · intro ts hts hamts
      obtain ⟨panel, hp, hemp⟩ := renderTickets_total ts hamts
      refine ⟨panel, hp, hemp, ?_⟩
      simp only [selectRace, hrace, hts, hp]
      rfl

/-- C8 witness: an index beyond the demo snapshot's two races is a no-op. -/
theorem selectRace_spec_witness :
    selectRace (some (getDemoData "20261011")) 5 blankState = Except.ok blankState :=
  (selectRace_spec (some (getDemoData "20261011")) 5 blankState).1 rfl

/-- A snapshot whose venue `01` has a single pattern with probability 0. -/
def snapZeroPatterns : Snapshot :=
  { venue_stats_summary := some [("01",
      { top_patterns := some [{ trifecta := "1-2-3", prob := 0, cum_prob := 0,
                                count := 5, kimarite := "まくり" }] })] }

unseal Rat.mul Rat.add Rat.inv Rat.ofScientific in
/-- C9 counterexample: when every pattern probability is 0, the divisor
`Math.max(...)` is 0 and `0 / 0` is `NaN`, so the highest-probability
pattern's bar renders as `NaN%`, not as a full-width `100%` bar. -/
theorem rankingBar_zero_prob_cex :
    renderVenueRanking (some snapZeroPatterns) (some "01")
      = RankingPanel.table [{ rank := 1, trifecta := "1-2-3", probText := "0.00%",
                              cumText := "0.0%", count := 5, kimarite := "まくり",
                              barWidth := "NaN%" }] ∧
    ("NaN%" : String) ≠ "100%" := by
  refine ⟨by decide, by decide⟩

unseal Rat.mul Rat.add Rat.inv Rat.ofScientific in
/-- C9 (amended): for a venue whose maximum pattern probability is positive,
every row's bar width is `round(prob / max * 100)` percent; the maximum is
attained by some pattern, and every pattern attaining it renders a `100%`
bar. -/
theorem rankingBar_width_spec (d : Snapshot) (code : String) (vs : VenueStats)
    (ps : List Pattern) (hcode : code ≠ "")
    (hlook : (d.venue_stats_summary.getD []).lookup code = some vs)
    (hpat : vs.top_patterns = some ps)
    (hpos : 0 < jsMax (ps.map Pattern.prob)) :
    renderVenueRanking (some d) (some code)
      = RankingPanel.table (ps.enum.map (fun p =>
          rankRow (jsMax (ps.map Pattern.prob)) p.1 p.2)) ∧
    (ps.enum.map (fun p => rankRow (jsMax (ps.map Pattern.prob)) p.1 p.2)).map
        RankRow.barWidth
      = ps.map (fun p =>
          jsToFixed0Str (p.prob / jsMax (ps.map Pattern.prob) * 100) ++ "%") ∧
    (∃ p ∈ ps, p.prob = jsMax (ps.map Pattern.prob)) ∧
    (∀ p ∈ ps, p.prob = jsMax (ps.map Pattern.prob) →
        jsToFixed0Str (p.prob / jsMax (ps.map Pattern.prob) * 100) ++ "%" = "100%") := by
  have hm0 : jsMax (ps.map Pattern.prob) ≠ 0 := ne_of_gt hpos
  have hne : ps ≠ [] := by
    intro hnil
    rw [hnil] at hpos
    exact absurd hpos (by decide)
  refine ⟨?_, ?_, ?_, ?_⟩
  · have hlen0 : ¬ ps.length = 0 := by simpa [List.length_eq_zero] using hne
    simp [renderVenueRanking, hcode, hlook, hpat, hlen0]
  · rw [List.map_map]
    show (ps.enumFrom 0).map
        (fun p => jsDivPctStr p.2.prob (jsMax (ps.map Pattern.prob)) ++ "%") = _
    rw [map_enumFrom_snd
      (fun q => jsDivPctStr q.prob (jsMax (ps.map Pattern.prob)) ++ "%") ps 0]
    exact List.map_congr_left (fun q _ => by simp [jsDivPctStr, hm0])
  · obtain ⟨p, hp, heq⟩ := List.mem_map.mp
      (jsMax_mem (ps.map Pattern.prob) (by simpa using hne))
    exact ⟨p, hp, heq⟩
  · intro p hp heq
    rw [heq, div_self hm0, one_mul]
    decide

unseal Rat.mul Rat.add Rat.inv Rat.ofScientific in
/-- C9 witness: the demo snapshot's venue `01` has maximum probability 0.082,
and its top pattern's bar is `100%` while the second is `79%`. -/
theorem rankingBar_width_spec_witness :
    (demoPatterns01.enum.map (fun p =>
        rankRow (jsMax (demoPatterns01.map Pattern.prob)) p.1 p.2)).map
      RankRow.barWidth
      = demoPatterns01.map (fun p =>
          jsToFixed0Str (p.prob / jsMax (demoPatterns01.map Pattern.prob) * 100) ++ "%") := by
  have h := (rankingBar_width_spec (getDemoData "20261011") "01" demoStats01
    demoPatterns01 (by decide) (by decide) rfl (by decide)).2.1
  exact h
